import Mathlib

/- Verification of the chunking-and-assembly pipeline of the AI Study Notes
   Generator (src/app.py): the chunker `split_text_into_chunks`, the five
   format generators, and the orchestrator's per-format generation loop.

   Python strings are modelled as Lean `String` (sequences of Unicode scalar
   values); the character-level helpers mirror the Python string operations
   used by the source (`str.split()`, `str.strip()`, `str.join`, slicing,
   `str.endswith`).  The external summarization capability is an opaque
   function; `none` models a raised exception or unusable result. -/

set_option maxRecDepth 40000

/-- The external summarization capability `summarize(text, max_length, min_length)`;
`none` models any raised exception or unusable result (caught per chunk by the
calling generator). -/
abbrev Summarizer := String → Nat → Nat → Option String

/-- One step of a right fold implementing Python `str.split()` over characters:
the state is (current word, words already found to the right). -/
def splitWsStep (c : Char) (p : List Char × List (List Char)) : List Char × List (List Char) :=
  if c.isWhitespace then ([], if p.1.isEmpty then p.2 else p.1 :: p.2)
  else (c :: p.1, p.2)

/-- Flush the pending word of the `splitWsStep` state. -/
def splitWsFlush (p : List Char × List (List Char)) : List (List Char) :=
  if p.1.isEmpty then p.2 else p.1 :: p.2

/-- Character-level Python `text.split()`: maximal runs of non-whitespace. -/
def splitWsChars (cs : List Char) : List (List Char) :=
  splitWsFlush (cs.foldr splitWsStep ([], []))

/-- Python `text.split()` (split on whitespace runs, discarding empty pieces). -/
def pySplitWs (s : String) : List String :=
  (splitWsChars s.data).map String.mk

/-- Character-level Python `s.strip()`: drop leading and trailing whitespace. -/
def stripChars (cs : List Char) : List Char :=
  ((cs.dropWhile Char.isWhitespace).reverse.dropWhile Char.isWhitespace).reverse

/-- Python `s.strip()`. -/
def pyStrip (s : String) : String := String.mk (stripChars s.data)

/-- Python slicing `s[:n]`. -/
def pyTake (s : String) (n : Nat) : String := String.mk (s.data.take n)

/-- Python `sep.join(parts)`. -/
def pyJoin (sep : String) : List String → String
  | [] => ""
  | [s] => s
  | s :: rest => s ++ sep ++ pyJoin sep rest

/-- Python `s.endswith(c)` for a single-character suffix. -/
def pyEndsWith (s : String) (c : Char) : Bool := s.data.getLast? == some c

/-- Python `s * n` for strings (used for the `"=" * 50` separator line). -/
def strRepeat (s : String) (n : Nat) : String := String.join (List.replicate n s)

/-- Character-level Python `s.split(". ")`: cut at each (leftmost-first,
non-overlapping) occurrence of a period followed by a space, keeping empty pieces. -/
def splitDotSpaceChars : List Char → List (List Char)
  | [] => [[]]
  | '.' :: ' ' :: rest => [] :: splitDotSpaceChars rest
  | c :: rest =>
    match splitDotSpaceChars rest with
    | [] => [[c]]
    | w :: ws => (c :: w) :: ws

/-- Python `summary.split(". ")`. -/
def pySplitDotSpace (s : String) : List String := (splitDotSpaceChars s.data).map String.mk

/-- Character-level split at newline characters (Python `s.split("\n")`),
used to speak about the physical lines of a generated artifact. -/
def splitNLChars : List Char → List (List Char)
  | [] => [[]]
  | '\n' :: rest => [] :: splitNLChars rest
  | c :: rest =>
    match splitNLChars rest with
    | [] => [[c]]
    | w :: ws => (c :: w) :: ws

/-- Python `s.split("\n")`: the physical lines of `s`. -/
def pySplitNL (s : String) : List String := (splitNLChars s.data).map String.mk

/-- Fuel-driven grouping of a word list into consecutive windows of `n` words
(`words[i:i+n]` for `i = 0, n, 2n, ...`); the fuel only bounds the recursion
and any fuel at least `words.length` gives the full window list. -/
def chunkWindowsAux : Nat → List String → Nat → List (List String)
  | 0, _, _ => []
  | _ + 1, [], _ => []
  | fuel + 1, w :: ws, n => (w :: ws.take (n - 1)) :: chunkWindowsAux fuel (ws.drop (n - 1)) n

/-- The word windows of the chunker loop `for i in range(0, len(words), max_tokens)`;
`n = 0` (on which Python's `range` would raise) yields no windows. -/
def chunkWindows (words : List String) (n : Nat) : List (List String) :=
  if n = 0 then [] else chunkWindowsAux words.length words n

/-- `split_text_into_chunks` (src/app.py lines 114-122): split on whitespace,
group into windows of `max_tokens` words, rejoin each window with single
spaces, and keep only the rejoined chunks whose stripped length exceeds 50. -/
def split_text_into_chunks (text : String) (max_tokens : Nat := 400) : List String :=
  let words := pySplitWs text
  ((chunkWindows words max_tokens).map (fun w => pyJoin " " w)).filter
    (fun chunk => 50 < (pyStrip chunk).length)

/-- The per-chunk summaries collected by `generate_comprehensive_summary`
(lines 136-149): a failing call contributes nothing. -/
def summariesList (text : String) (summarizer : Summarizer) (max_length min_length : Nat) : List String :=
  (split_text_into_chunks text 400).filterMap
    (fun chunk => summarizer (pyTake chunk 3000) max_length min_length)

/-- Body of `generate_comprehensive_summary` after the two length parameters
have been computed from the detail level. -/
def generate_comprehensive_with (text : String) (summarizer : Summarizer) (max_length min_length : Nat) : String :=
  let summaries := summariesList text summarizer max_length min_length
  if summaries = [] then "Could not generate summary."
  else pyJoin "\n\n" (summaries.enum.map (fun p => "📌 Section " ++ toString (p.1 + 1) ++ ":\n" ++ p.2))

/-- `generate_comprehensive_summary` (lines 128-154):
`max_length = 100 + detail_level * 30`, `min_length = 30 + detail_level * 10`. -/
def generate_comprehensive_summary (text : String) (summarizer : Summarizer) (detail_level : Nat) : String :=
  generate_comprehensive_with text summarizer (100 + detail_level * 30) (30 + detail_level * 10)

/-- The `all_points` list built by `generate_bullet_points` (lines 158-178):
each successful chunk summary is split on `". "`, sentences with stripped
length above 10 are kept, bullet-prefixed, and period-terminated. -/
def allPointsList (text : String) (summarizer : Summarizer) : List String :=
  (split_text_into_chunks text 400).foldl
    (fun all_points chunk =>
      match summarizer (pyTake chunk 3000) 120 30 with
      | none => all_points
      | some summary =>
        let sentences := pySplitDotSpace summary
        let points := (sentences.filter (fun s => 10 < (pyStrip s).length)).map
          (fun s => "• " ++ pyStrip s ++ (if pyEndsWith s '.' then "" else "."))
        all_points ++ points)
    []

/-- `generate_bullet_points` (lines 156-180); the detail level is accepted but
never read by the body. -/
def generate_bullet_points (text : String) (summarizer : Summarizer) (detail_level : Nat) : String :=
  let all_points := allPointsList text summarizer
  if all_points = [] then "Could not generate bullet points."
  else pyJoin "\n" all_points

/-- The `flashcards` list built by `generate_flashcards` (lines 185-206) for a
given card cap `num_cards`. -/
def flashcardsList (text : String) (summarizer : Summarizer) (num_cards : Nat) : List String :=
  ((split_text_into_chunks text 500).take num_cards).filterMap
    (fun chunk =>
      match summarizer (pyTake chunk 3000) 80 20 with
      | none => none
      | some summary =>
        let sentences := pySplitDotSpace summary
        if 0 < sentences.length then
          some ("Q: " ++ ("What is important about: " ++ pyTake (sentences.headD "") 50 ++ "...?")
            ++ "\nA: " ++ summary)
        else none)

/-- Body of `generate_flashcards` after `num_cards` has been computed. -/
def generate_flashcards_upto (text : String) (summarizer : Summarizer) (num_cards : Nat) : String :=
  let flashcards := flashcardsList text summarizer num_cards
  if flashcards = [] then "Could not generate flashcards."
  else pyJoin "\n\n" (flashcards.enum.map (fun p => "--- Card " ++ toString (p.1 + 1) ++ " ---\n" ++ p.2))

/-- `generate_flashcards` (lines 182-208); `num_cards = detail_level * 5`. -/
def generate_flashcards (text : String) (summarizer : Summarizer) (detail_level : Nat) : String :=
  generate_flashcards_upto text summarizer (detail_level * 5)

/-- The `qa_pairs` list built by `generate_qa_format` (lines 212-234): the
labels use `i + 1` where `i` enumerates the attempted chunks (the first
`num_questions` chunks), whether or not earlier chunks produced a pair. -/
def qaPairsList (text : String) (summarizer : Summarizer) (num_questions : Nat) : List String :=
  ((split_text_into_chunks text 400).take num_questions).enum.filterMap
    (fun p =>
      match summarizer (pyTake p.2 3000) 100 30 with
      | none => none
      | some summary =>
        let words := pySplitWs summary
        if 10 < words.length then
          some (("Q" ++ toString (p.1 + 1) ++ ": Explain - " ++ pyJoin " " (words.take 8) ++ "...?")
            ++ "\n" ++ ("A" ++ toString (p.1 + 1) ++ ": " ++ summary))
        else none)

/-- Body of `generate_qa_format` after `num_questions` has been computed. -/
def generate_qa_upto (text : String) (summarizer : Summarizer) (num_questions : Nat) : String :=
  let qa_pairs := qaPairsList text summarizer num_questions
  if qa_pairs = [] then "Could not generate Q&A pairs."
  else pyJoin "\n\n" qa_pairs

/-- `generate_qa_format` (lines 210-236); `num_questions = detail_level * 3`. -/
def generate_qa_format (text : String) (summarizer : Summarizer) (detail_level : Nat) : String :=
  generate_qa_upto text summarizer (detail_level * 3)

/-- The `concepts` list built by `generate_concept_map` (lines 240-256)
for a given chunk cap. -/
def conceptsList (text : String) (summarizer : Summarizer) (cap : Nat) : List String :=
  ((split_text_into_chunks text 500).take cap).filterMap
    (fun chunk => summarizer (pyTake chunk 3000) 60 20)

/-- Body of `generate_concept_map` after the chunk cap has been computed. -/
def generate_concept_map_upto (text : String) (summarizer : Summarizer) (cap : Nat) : String :=
  let concepts := conceptsList text summarizer cap
  if concepts = [] then "Could not generate concept map."
  else concepts.enum.foldl
    (fun result p => result ++ "├─ Concept " ++ toString (p.1 + 1) ++ "\n│  └─ " ++ p.2 ++ "\n│\n")
    ("📊 CONCEPT MAP\n" ++ strRepeat "=" 50 ++ "\n\nMain Topic\n|\n")

/-- `generate_concept_map` (lines 238-265); chunk cap `detail_level * 2`. -/
def generate_concept_map (text : String) (summarizer : Summarizer) (detail_level : Nat) : String :=
  generate_concept_map_upto text summarizer (detail_level * 2)

/-- The fixed order of the five formats, as expanded from "All Formats"
(src/app.py line 394). -/
def allFormats : List String :=
  ["Comprehensive Summary", "Bullet Points", "Flashcards", "Q&A Format", "Concept Map"]

/-- The orchestrator's generation loop (src/app.py lines 398-420): each format
is built inside a `try`; on success `results[fmt] = result` records the
artifact, on an exception `st.error(f"Error generating {fmt}: {str(e)}")` is
shown and the loop moves on.  `build` abstracts the dispatch to the five
generators (lines 402-412) together with any exception it may raise; the
first component is the `results` mapping in insertion order, the second the
list of `st.error` messages. -/
def generationLoop (build : String → Except String String) : List String → List (String × String) × List String
  | [] => ([], [])
  | fmt :: rest =>
    match build fmt with
    | Except.ok result =>
      let p := generationLoop build rest
      ((fmt, result) :: p.1, p.2)
    | Except.error e =>
      let p := generationLoop build rest
      (p.1, ("Error generating " ++ fmt ++ ": " ++ e) :: p.2)


/- ------------------------------------------------------------------
   Helper lemmas: whitespace splitting and space joining
   ------------------------------------------------------------------ -/

/-- Character-level join with single spaces (the `' '.join` used by the chunker). -/
def charJoinSp : List (List Char) → List Char
  | [] => []
  | [w] => w
  | w :: rest => w ++ ' ' :: charJoinSp rest

/-- A word produced by whitespace splitting: non-empty and whitespace-free. -/
def goodWord (w : List Char) : Prop := w ≠ [] ∧ ∀ c ∈ w, c.isWhitespace = false

theorem pyJoin_space_data : ∀ l : List String, (pyJoin " " l).data = charJoinSp (l.map String.data)
  | [] => rfl
  | [s] => rfl
  | s :: t :: rest => by
    show (s ++ " " ++ pyJoin " " (t :: rest)).data = charJoinSp (s.data :: (t :: rest).map String.data)
    rw [String.data_append, String.data_append, pyJoin_space_data (t :: rest)]
    show s.data ++ [' '] ++ charJoinSp ((t :: rest).map String.data) = _
    rw [List.append_assoc]
    rfl

theorem foldr_splitWsStep_nonws :
    ∀ (w : List Char) (p : List Char × List (List Char)),
      (∀ c ∈ w, c.isWhitespace = false) → w.foldr splitWsStep p = (w ++ p.1, p.2)
  | [], p, _ => rfl
  | c :: w, p, h => by
    have hc : c.isWhitespace = false := h c (List.mem_cons_self c w)
    have ih := foldr_splitWsStep_nonws w p (fun d hd => h d (List.mem_cons_of_mem c hd))
    show splitWsStep c (List.foldr splitWsStep p w) = ((c :: w) ++ p.1, p.2)
    rw [ih]
    simp [splitWsStep, hc]

theorem splitWsChars_nil : splitWsChars [] = [] := rfl

theorem splitWsChars_single (w : List Char) (hne : w ≠ [])
    (hws : ∀ c ∈ w, c.isWhitespace = false) : splitWsChars w = [w] := by
  unfold splitWsChars
  rw [foldr_splitWsStep_nonws w ([], []) hws]
  simp [splitWsFlush, hne]

theorem splitWsChars_word_space (w rest : List Char) (hne : w ≠ [])
    (hws : ∀ c ∈ w, c.isWhitespace = false) :
    splitWsChars (w ++ ' ' :: rest) = w :: splitWsChars rest := by
  unfold splitWsChars
  rw [List.foldr_append]
  show splitWsFlush (w.foldr splitWsStep (splitWsStep ' ' (rest.foldr splitWsStep ([], [])))) = _
  have hstep : splitWsStep ' ' (rest.foldr splitWsStep ([], []))
      = ([], splitWsFlush (rest.foldr splitWsStep ([], []))) := by
    simp [splitWsStep, splitWsFlush]
  rw [hstep, foldr_splitWsStep_nonws w _ hws]
  simp [splitWsFlush, hne]

theorem splitWsChars_state_good (cs : List Char) :
    (∀ c ∈ (cs.foldr splitWsStep ([], [])).1, c.isWhitespace = false)
    ∧ (∀ w ∈ (cs.foldr splitWsStep ([], [])).2, goodWord w) := by
  induction cs with
  | nil => exact ⟨fun c hc => absurd hc (List.not_mem_nil c), fun w hw => absurd hw (List.not_mem_nil w)⟩
  | cons c cs ih =>
    show (∀ d ∈ (splitWsStep c (cs.foldr splitWsStep ([], []))).1, d.isWhitespace = false)
      ∧ (∀ w ∈ (splitWsStep c (cs.foldr splitWsStep ([], []))).2, goodWord w)
    set q := cs.foldr splitWsStep ([], []) with hq
    by_cases hc : c.isWhitespace
    · constructor
      · intro d hd
        simp [splitWsStep, hc] at hd
      · intro w hw
        simp only [splitWsStep, hc, if_true] at hw
        by_cases hq1 : q.1.isEmpty
        · rw [if_pos hq1] at hw
          exact ih.2 w hw
        · rw [if_neg hq1] at hw
          rcases List.mem_cons.mp hw with h1 | h2
          · subst h1
            refine ⟨fun h => hq1 ?_, ih.1⟩
            rw [h]
            rfl
          · exact ih.2 w h2
    · constructor
      · intro d hd
        simp only [splitWsStep, hc, if_false] at hd
        rcases List.mem_cons.mp hd with h1 | h2
        · subst h1
          simpa using hc
        · exact ih.1 d h2
      · intro w hw
        simp only [splitWsStep, hc, if_false] at hw
        exact ih.2 w hw

theorem splitWsChars_good (cs : List Char) : ∀ w ∈ splitWsChars cs, goodWord w := by
  intro w hw
  have h := splitWsChars_state_good cs
  unfold splitWsChars splitWsFlush at hw
  set q := cs.foldr splitWsStep ([], []) with hq
  by_cases hq1 : q.1.isEmpty
  · rw [if_pos hq1] at hw
    exact h.2 w hw
  · rw [if_neg hq1] at hw
    rcases List.mem_cons.mp hw with h1 | h2
    · subst h1
      refine ⟨fun habs => hq1 ?_, h.1⟩
      rw [habs]
      rfl
    · exact h.2 w h2

theorem pySplitWs_good (s : String) : ∀ w ∈ pySplitWs s, goodWord w.data := by
  intro w hw
  rcases List.mem_map.mp hw with ⟨cs, hcs, hmk⟩
  have := splitWsChars_good s.data cs hcs
  rwa [← hmk]

/- ------------------------------------------------------------------
   Helper lemmas: windows, joining, stripping
   ------------------------------------------------------------------ -/

theorem charJoinSp_append :
    ∀ (a b : List (List Char)), a ≠ [] → b ≠ [] →
      charJoinSp (a ++ b) = charJoinSp a ++ ' ' :: charJoinSp b
  | [], _, ha, _ => absurd rfl ha
  | [w], b, _, hb => by
    match b, hb with
    | x :: rest, _ =>
      show charJoinSp (w :: x :: rest) = charJoinSp [w] ++ ' ' :: charJoinSp (x :: rest)
      rfl
  | w :: v :: a, b, _, hb => by
    have ih := charJoinSp_append (v :: a) b (by simp) hb
    show charJoinSp (w :: ((v :: a) ++ b)) = charJoinSp (w :: v :: a) ++ ' ' :: charJoinSp b
    have h1 : charJoinSp (w :: ((v :: a) ++ b)) = w ++ ' ' :: charJoinSp ((v :: a) ++ b) := rfl
    rw [h1, ih]
    show _ = (w ++ ' ' :: charJoinSp (v :: a)) ++ ' ' :: charJoinSp b
    simp

theorem splitWsChars_charJoinSp :
    ∀ l : List (List Char), (∀ w ∈ l, goodWord w) → splitWsChars (charJoinSp l) = l
  | [], _ => rfl
  | [w], h => by
    have hw := h w (List.mem_cons_self w [])
    exact splitWsChars_single w hw.1 hw.2
  | w :: x :: rest, h => by
    have hw := h w (List.mem_cons_self w _)
    have ih := splitWsChars_charJoinSp (x :: rest) (fun v hv => h v (List.mem_cons_of_mem w hv))
    show splitWsChars (w ++ ' ' :: charJoinSp (x :: rest)) = w :: x :: rest
    rw [splitWsChars_word_space w _ hw.1 hw.2, ih]

theorem charJoinSp_flatten :
    ∀ ll : List (List (List Char)), (∀ win ∈ ll, win ≠ []) →
      charJoinSp (ll.map charJoinSp) = charJoinSp ll.flatten
  | [], _ => rfl
  | [win], _ => by
    show charJoinSp [charJoinSp win] = charJoinSp (win ++ [])
    rw [List.append_nil]
    match win with
    | [] => rfl
    | w :: ws => rfl
  | win :: w2 :: rest, h => by
    have hwin : win ≠ [] := h win (List.mem_cons_self win _)
    have ih := charJoinSp_flatten (w2 :: rest) (fun v hv => h v (List.mem_cons_of_mem win hv))
    have hflat : (w2 :: rest).flatten ≠ [] := by
      have hw2 : w2 ≠ [] := h w2 (List.mem_cons_of_mem win (List.mem_cons_self w2 rest))
      rw [List.flatten_cons]
      intro habs
      exact hw2 (List.append_eq_nil.mp habs).1
    show charJoinSp (charJoinSp win :: (w2 :: rest).map charJoinSp) = charJoinSp (win ++ (w2 :: rest).flatten)
    rw [charJoinSp_append win _ hwin hflat, ← ih]
    match hmap : (w2 :: rest).map charJoinSp with
    | [] => simp at hmap
    | y :: ys => rfl

theorem chunkWindowsAux_flatten :
    ∀ (fuel : Nat) (l : List String) (n : Nat), l.length ≤ fuel →
      (chunkWindowsAux fuel l (n + 1)).flatten = l
  | 0, l, _, h => by
    match l, h with
    | [], _ => rfl
  | fuel + 1, [], _, _ => rfl
  | fuel + 1, w :: ws, n, h => by
    show ((w :: ws.take (n + 1 - 1)) :: chunkWindowsAux fuel (ws.drop (n + 1 - 1)) (n + 1)).flatten = w :: ws
    have hlen : (ws.drop (n + 1 - 1)).length ≤ fuel := by
      have h1 : (ws.drop (n + 1 - 1)).length ≤ ws.length := by
        rw [List.length_drop]
        omega
      have h2 : ws.length ≤ fuel := by
        have := h
        simp only [List.length_cons] at this
        omega
      omega
    rw [List.flatten_cons, chunkWindowsAux_flatten fuel _ n hlen]
    show w :: (ws.take (n + 1 - 1) ++ ws.drop (n + 1 - 1)) = w :: ws
    rw [List.take_append_drop]

theorem chunkWindows_flatten (words : List String) (n : Nat) (hn : 1 ≤ n) :
    (chunkWindows words n).flatten = words := by
  unfold chunkWindows
  rw [if_neg (by omega : ¬ n = 0)]
  match n, hn with
  | m + 1, _ => exact chunkWindowsAux_flatten words.length words m (Nat.le_refl _)

theorem chunkWindowsAux_ne_nil :
    ∀ (fuel : Nat) (l : List String) (n : Nat), ∀ win ∈ chunkWindowsAux fuel l n, win ≠ []
  | 0, _, _ => by intro win hw; simp [chunkWindowsAux] at hw
  | _ + 1, [], _ => by intro win hw; simp [chunkWindowsAux] at hw
  | fuel + 1, w :: ws, n => by
    intro win hw
    rcases List.mem_cons.mp hw with h1 | h2
    · subst h1; simp
    · exact chunkWindowsAux_ne_nil fuel (ws.drop (n - 1)) n win h2

theorem chunkWindows_ne_nil (words : List String) (n : Nat) :
    ∀ win ∈ chunkWindows words n, win ≠ [] := by
  intro win hw
  unfold chunkWindows at hw
  by_cases hn : n = 0
  · rw [if_pos hn] at hw; simp at hw
  · rw [if_neg hn] at hw
    exact chunkWindowsAux_ne_nil words.length words n win hw

theorem stripChars_length_le (cs : List Char) : (stripChars cs).length ≤ cs.length := by
  unfold stripChars
  rw [List.length_reverse]
  calc ((cs.dropWhile Char.isWhitespace).reverse.dropWhile Char.isWhitespace).length
      ≤ (cs.dropWhile Char.isWhitespace).reverse.length :=
        (List.dropWhile_sublist _).length_le
    _ = (cs.dropWhile Char.isWhitespace).length := List.length_reverse _
    _ ≤ cs.length := (List.dropWhile_sublist _).length_le

theorem pyStrip_length_le (s : String) : (pyStrip s).length ≤ s.length :=
  stripChars_length_le s.data

/- ------------------------------------------------------------------
   Core chunker lemmas (claims C1, C2)
   ------------------------------------------------------------------ -/

theorem split_text_into_chunks_eq_kept_map (text : String) (n : Nat) :
    split_text_into_chunks text n
      = ((chunkWindows (pySplitWs text) n).filter
          (fun w => 50 < (pyStrip (pyJoin " " w)).length)).map (fun w => pyJoin " " w) :=
  List.filter_map (fun w => pyJoin " " w) (chunkWindows (pySplitWs text) n)

theorem rejoin_kept_windows (text : String) (n : Nat) (hn : 1 ≤ n) :
    pySplitWs (pyJoin " " (split_text_into_chunks text n))
      = ((chunkWindows (pySplitWs text) n).filter
          (fun w => 50 < (pyStrip (pyJoin " " w)).length)).flatten := by
  rw [split_text_into_chunks_eq_kept_map]
  set ws0 := pySplitWs text with hws0
  set kept := (chunkWindows ws0 n).filter (fun w => 50 < (pyStrip (pyJoin " " w)).length)
    with hkeptdef
  have hkept_sub : ∀ win ∈ kept, win ∈ chunkWindows ws0 n :=
    fun win hw => List.mem_of_mem_filter hw
  have hkept_ne : ∀ win ∈ kept, win ≠ [] :=
    fun win hw => chunkWindows_ne_nil _ _ win (hkept_sub win hw)
  have hflat : (chunkWindows ws0 n).flatten = ws0 := chunkWindows_flatten ws0 n hn
  have hgoodw : ∀ w ∈ kept.flatten, goodWord w.data := by
    intro w hw
    rcases List.mem_flatten.mp hw with ⟨win, hwin, hmem⟩
    have hmem2 : w ∈ (chunkWindows ws0 n).flatten :=
      List.mem_flatten.mpr ⟨win, hkept_sub win hwin, hmem⟩
    rw [hflat] at hmem2
    exact pySplitWs_good text w hmem2
  have hdata : (pyJoin " " (kept.map (fun w => pyJoin " " w))).data
      = charJoinSp ((kept.flatten).map String.data) := by
    rw [pyJoin_space_data, List.map_map]
    have h1 : kept.map (String.data ∘ fun w => pyJoin " " w)
        = (kept.map (fun w => w.map String.data)).map charJoinSp := by
      rw [List.map_map]
      apply List.map_congr_left
      intro w _
      exact pyJoin_space_data w
    rw [h1]
    have h2 : ∀ win ∈ kept.map (fun w => w.map String.data), win ≠ [] := by
      intro win hwin
      rcases List.mem_map.mp hwin with ⟨v, hv, hveq⟩
      have := hkept_ne v hv
      intro habs
      rw [← hveq] at habs
      exact this (List.map_eq_nil.mp habs)
    rw [charJoinSp_flatten _ h2]
    have h3 : (kept.map (fun w => w.map String.data)).flatten = (kept.flatten).map String.data :=
      (List.map_flatten String.data kept).symm
    rw [h3]
  show pySplitWs (pyJoin " " (kept.map (fun w => pyJoin " " w))) = kept.flatten
  unfold pySplitWs
  rw [hdata]
  rw [splitWsChars_charJoinSp]
  · rw [List.map_map]
    have : ∀ w ∈ kept.flatten, (String.mk ∘ String.data) w = id w := by
      intro w _
      rfl
    rw [List.map_congr_left this, List.map_id]
  · intro w hw
    rcases List.mem_map.mp hw with ⟨v, hv, hveq⟩
    rw [← hveq]
    exact hgoodw v hv

/- ------------------------------------------------------------------
   Claims C1 and C2
   ------------------------------------------------------------------ -/

/-- A 60-character single word, long enough to survive the 50-character chunk filter. -/
def exA60 : String := String.mk (List.replicate 60 'a')

/-- Input showing that a dropped short window need not be trailing:
with one word per chunk, the first window "x" (length 1) is dropped while
the second window (60 characters) is kept. -/
def c1CexText : String := "x " ++ exA60

/-- C1 counterexample: the claim says only words of discarded short *trailing*
windows may be missing, which would make the rejoined-and-resplit word
sequence an initial segment (`take`) of the original word sequence.  On
`c1CexText` with `wordsPerChunk = 1` the dropped window is the *first* one,
so the output word sequence is not such an initial segment. -/
theorem chunker_rejoin_trailing_only_false :
    pySplitWs (pyJoin " " (split_text_into_chunks c1CexText 1))
      ≠ (pySplitWs c1CexText).take
          (pySplitWs (pyJoin " " (split_text_into_chunks c1CexText 1))).length := by
  decide

/-- C1 (amended): for non-empty `text` and `wordsPerChunk ≥ 1`, joining the
chunks with single spaces and re-splitting on whitespace yields exactly the
concatenation of the kept windows (those whose rejoined, stripped length
exceeds 50) — i.e. the original word sequence with the words of every
discarded short window removed, whether or not that window is trailing;
all windows together carry the original word sequence. -/
theorem chunker_rejoin_drops_short_windows (text : String) (n : Nat)
    (htext : text ≠ "") (hn : 1 ≤ n) :
    pySplitWs (pyJoin " " (split_text_into_chunks text n))
      = ((chunkWindows (pySplitWs text) n).filter
          (fun w => 50 < (pyStrip (pyJoin " " w)).length)).flatten
    ∧ (chunkWindows (pySplitWs text) n).flatten = pySplitWs text :=
  ⟨rejoin_kept_windows text n hn, chunkWindows_flatten (pySplitWs text) n hn⟩

/-- Two-word input whose single window of two words is kept. -/
def c1WitText : String := exA60 ++ " bb"

/-- Witness for `chunker_rejoin_drops_short_windows` at a concrete input. -/
theorem chunker_rejoin_drops_short_windows_witness :
    pySplitWs (pyJoin " " (split_text_into_chunks c1WitText 2))
        = ((chunkWindows (pySplitWs c1WitText) 2).filter
            (fun w => 50 < (pyStrip (pyJoin " " w)).length)).flatten
      ∧ (chunkWindows (pySplitWs c1WitText) 2).flatten = pySplitWs c1WitText :=
  chunker_rejoin_drops_short_windows c1WitText 2 (by decide) (by decide)

/-- C2: every chunk emitted by `split_text_into_chunks` has stripped and raw
character length strictly greater than 50, and the emitted chunk list is
exactly the window list with each window rejoined and the short rejoined
windows filtered out — a window whose rejoined length is at most 50
contributes no chunk and no window is retried or merged with a neighbor. -/
theorem chunker_min_length_and_no_merge (text : String) (n : Nat) (hn : 1 ≤ n) :
    (∀ chunk ∈ split_text_into_chunks text n,
        50 < (pyStrip chunk).length ∧ 50 < chunk.length)
    ∧ split_text_into_chunks text n
        = ((chunkWindows (pySplitWs text) n).filter
            (fun w => 50 < (pyStrip (pyJoin " " w)).length)).map (fun w => pyJoin " " w) := by
  constructor
  · intro chunk hc
    unfold split_text_into_chunks at hc
    have h2 := (List.mem_filter.mp hc).2
    have h1 : 50 < (pyStrip chunk).length := of_decide_eq_true h2
    exact ⟨h1, lt_of_lt_of_le h1 (pyStrip_length_le chunk)⟩
  · exact split_text_into_chunks_eq_kept_map text n

/-- Witness for `chunker_min_length_and_no_merge`: the 60-character single-word
input is itself an emitted chunk of length 60 > 50. -/
theorem chunker_min_length_and_no_merge_witness :
    50 < (pyStrip exA60).length ∧ 50 < exA60.length :=
  (chunker_min_length_and_no_merge exA60 400 (by decide)).1 exA60 (by decide)

/- ------------------------------------------------------------------
   Generic helpers: string appending, joining, folding
   ------------------------------------------------------------------ -/

theorem data_ne_nil_append (a b : String) (ha : a.data ≠ []) : (a ++ b).data ≠ [] := by
  rw [String.data_append]
  intro h
  exact ha (List.append_eq_nil.mp h).1

theorem str_ne_empty_of_data_ne_nil {s : String} (h : s.data ≠ []) : s ≠ "" := by
  intro habs
  rw [habs] at h
  exact h rfl

theorem pyJoin_ne_empty (sep : String) :
    ∀ l : List String, l ≠ [] → (∀ x ∈ l, x.data ≠ []) → pyJoin sep l ≠ ""
  | [], h, _ => absurd rfl h
  | [x], _, hx => by
    show x ≠ ""
    exact str_ne_empty_of_data_ne_nil (hx x (List.mem_cons_self x []))
  | x :: y :: l, _, hx => by
    show x ++ sep ++ pyJoin sep (y :: l) ≠ ""
    exact str_ne_empty_of_data_ne_nil
      (data_ne_nil_append _ _ (data_ne_nil_append x sep (hx x (List.mem_cons_self x _))))

theorem strFoldl_append_shift :
    ∀ (l : List String) (s : String), l.foldl (· ++ ·) s = s ++ l.foldl (· ++ ·) ""
  | [], s => (String.append_empty s).symm
  | x :: l, s => by
    show List.foldl (· ++ ·) (s ++ x) l = s ++ List.foldl (· ++ ·) ("" ++ x) l
    rw [strFoldl_append_shift l (s ++ x), strFoldl_append_shift l ("" ++ x),
      String.empty_append, String.append_assoc]

theorem strJoin_cons (x : String) (l : List String) :
    String.join (x :: l) = x ++ String.join l := by
  show List.foldl (· ++ ·) ("" ++ x) l = x ++ List.foldl (· ++ ·) "" l
  rw [String.empty_append, strFoldl_append_shift l x]

theorem foldl_strAppend_join {α : Type} (g : α → String) :
    ∀ (l : List α) (init : String),
      l.foldl (fun r x => r ++ g x) init = init ++ String.join (l.map g)
  | [], init => by
    show init = init ++ String.join []
    rw [show String.join [] = "" from rfl, String.append_empty]
  | x :: l, init => by
    show List.foldl (fun r x => r ++ g x) (init ++ g x) l = init ++ String.join (g x :: l.map g)
    rw [foldl_strAppend_join g l (init ++ g x), strJoin_cons, String.append_assoc]

theorem foldl_preserve_data_ne_nil {α : Type} (f : String → α → String)
    (hf : ∀ (r : String) (x : α), r.data ≠ [] → (f r x).data ≠ []) :
    ∀ (l : List α) (init : String), init.data ≠ [] → (l.foldl f init).data ≠ []
  | [], _, h => h
  | x :: l, init, h => foldl_preserve_data_ne_nil f hf l (f init x) (hf init x h)

theorem foldl_append_flatten {α β : Type} (g : α → List β) :
    ∀ (l : List α) (init : List β),
      l.foldl (fun acc x => acc ++ g x) init = init ++ (l.map g).flatten
  | [], init => by simp
  | x :: l, init => by
    show List.foldl (fun acc x => acc ++ g x) (init ++ g x) l = _
    rw [foldl_append_flatten g l (init ++ g x)]
    simp

theorem length_filterMap_of_isSome {α β : Type} (f : α → Option β) :
    ∀ l : List α, (∀ x ∈ l, (f x).isSome) → (l.filterMap f).length = l.length
  | [], _ => rfl
  | x :: l, h => by
    have hx := h x (List.mem_cons_self x l)
    match hfx : f x with
    | none => rw [hfx] at hx; simp at hx
    | some b =>
      rw [List.filterMap_cons_some hfx]
      rw [List.length_cons, List.length_cons,
        length_filterMap_of_isSome f l (fun y hy => h y (List.mem_cons_of_mem x hy))]

/- ------------------------------------------------------------------
   Strip and endswith helpers
   ------------------------------------------------------------------ -/

theorem getLast?_dropWhile_of (p : Char → Bool) :
    ∀ (cs : List Char) (c : Char), cs.getLast? = some c → p c = false →
      (cs.dropWhile p).getLast? = some c
  | [], c, h, _ => by simp at h
  | [x], c, h, hc => by
    have hx : x = c := by simpa using h
    subst hx
    rw [List.dropWhile_cons, if_neg (by simp [hc])]
    rfl
  | x :: y :: cs, c, h, hc => by
    have h2 : (y :: cs).getLast? = some c := by rwa [List.getLast?_cons_cons] at h
    rw [List.dropWhile_cons]
    by_cases hx : p x
    · rw [if_pos hx]
      exact getLast?_dropWhile_of p (y :: cs) c h2 hc
    · rw [if_neg hx]
      rwa [List.getLast?_cons_cons]

theorem stripChars_getLast? (cs : List Char) (c : Char)
    (h : cs.getLast? = some c) (hc : c.isWhitespace = false) :
    (stripChars cs).getLast? = some c := by
  unfold stripChars
  have h1 : (cs.dropWhile Char.isWhitespace).getLast? = some c :=
    getLast?_dropWhile_of _ cs c h hc
  have h2 : (cs.dropWhile Char.isWhitespace).reverse.head? = some c := by
    rw [List.head?_reverse]
    exact h1
  match hrev : (cs.dropWhile Char.isWhitespace).reverse with
  | [] => rw [hrev] at h2; simp at h2
  | x :: rest =>
    rw [hrev] at h2
    have hx : x = c := by simpa using h2
    subst hx
    rw [List.dropWhile_cons, if_neg (by simp [hc])]
    rw [List.getLast?_reverse]
    rfl

/- ------------------------------------------------------------------
   Bullet point machinery (claims C3, C8, C10)
   ------------------------------------------------------------------ -/

/-- The bullet points contributed by one chunk of `generate_bullet_points`:
empty when the summarization fails. -/
def bulletPointsOfChunk (summarizer : Summarizer) (chunk : String) : List String :=
  match summarizer (pyTake chunk 3000) 120 30 with
  | none => []
  | some summary =>
    ((pySplitDotSpace summary).filter (fun s => 10 < (pyStrip s).length)).map
      (fun s => "• " ++ pyStrip s ++ (if pyEndsWith s '.' then "" else "."))

theorem foldl_points_eq (s : Summarizer) :
    ∀ (l : List String) (acc : List String),
      l.foldl (fun all_points chunk =>
        match s (pyTake chunk 3000) 120 30 with
        | none => all_points
        | some summary =>
          let sentences := pySplitDotSpace summary
          let points := (sentences.filter (fun t => 10 < (pyStrip t).length)).map
            (fun t => "• " ++ pyStrip t ++ (if pyEndsWith t '.' then "" else "."))
          all_points ++ points) acc
      = acc ++ (l.map (bulletPointsOfChunk s)).flatten
  | [], acc => by simp
  | chunk :: l, acc => by
    rw [List.foldl_cons, foldl_points_eq s l _]
    show (match s (pyTake chunk 3000) 120 30 with
      | none => acc
      | some summary =>
        acc ++ ((pySplitDotSpace summary).filter (fun t => 10 < (pyStrip t).length)).map
          (fun t => "• " ++ pyStrip t ++ (if pyEndsWith t '.' then "" else "."))) ++
        (l.map (bulletPointsOfChunk s)).flatten
      = acc ++ (bulletPointsOfChunk s chunk :: l.map (bulletPointsOfChunk s)).flatten
    unfold bulletPointsOfChunk
    cases s (pyTake chunk 3000) 120 30 with
    | none => simp
    | some summary => simp

theorem allPointsList_eq_flatten (text : String) (s : Summarizer) :
    allPointsList text s
      = ((split_text_into_chunks text 400).map (bulletPointsOfChunk s)).flatten := by
  unfold allPointsList
  rw [foldl_points_eq s (split_text_into_chunks text 400) []]
  rw [List.nil_append]

theorem allPointsList_shape (text : String) (s : Summarizer) :
    ∀ p ∈ allPointsList text s,
      ∃ t : String, p = "• " ++ t ∧ 11 ≤ t.length ∧ t.data.getLast? = some '.' := by
  intro p hp
  rw [allPointsList_eq_flatten] at hp
  rcases List.mem_flatten.mp hp with ⟨pts, hpts, hmem⟩
  rcases List.mem_map.mp hpts with ⟨chunk, _, hchunk⟩
  rw [← hchunk] at hmem
  unfold bulletPointsOfChunk at hmem
  cases hs : s (pyTake chunk 3000) 120 30 with
  | none => rw [hs] at hmem; simp at hmem
  | some summary =>
    rw [hs] at hmem
    rcases List.mem_map.mp hmem with ⟨sent, hsent, hpeq⟩
    have hlen : 10 < (pyStrip sent).length := of_decide_eq_true (List.mem_filter.mp hsent).2
    refine ⟨pyStrip sent ++ (if pyEndsWith sent '.' then "" else "."), ?_, ?_, ?_⟩
    · rw [← hpeq, String.append_assoc]
    · rw [String.length_append]
      by_cases he : pyEndsWith sent '.'
      · rw [if_pos he]
        show 11 ≤ (pyStrip sent).length + ("" : String).length
        omega
      · rw [if_neg he]
        show 11 ≤ (pyStrip sent).length + ("." : String).length
        have : ("." : String).length = 1 := rfl
        omega
    · by_cases he : pyEndsWith sent '.'
      · rw [if_pos he, String.append_empty]
        have hlast : sent.data.getLast? = some '.' := by
          have := he
          unfold pyEndsWith at this
          simpa using this
        exact stripChars_getLast? sent.data '.' hlast (by decide)
      · rw [if_neg he, String.data_append]
        show ((pyStrip sent).data ++ ['.']).getLast? = some '.'
        exact List.getLast?_concat _

/- ------------------------------------------------------------------
   Claim C3: all-chunks-fail fallback
   ------------------------------------------------------------------ -/

/-- C3: if every summarization call fails, each of the five format generators
returns its fixed non-empty fallback string — never an empty string, and (in
this total model of the per-chunk try/except) never an exception. -/
theorem generators_all_fail_fallback (text : String) (s : Summarizer) (d : Nat)
    (hf : ∀ a b c, s a b c = none) :
    generate_comprehensive_summary text s d = "Could not generate summary."
    ∧ generate_bullet_points text s d = "Could not generate bullet points."
    ∧ generate_flashcards text s d = "Could not generate flashcards."
    ∧ generate_qa_format text s d = "Could not generate Q&A pairs."
    ∧ generate_concept_map text s d = "Could not generate concept map." := by
  have hsum : summariesList text s (100 + d * 30) (30 + d * 10) = [] :=
    List.filterMap_eq_nil_iff.mpr (fun chunk _ => hf _ _ _)
  have hpts : allPointsList text s = [] := by
    rw [allPointsList_eq_flatten]
    have h : ∀ chunk ∈ split_text_into_chunks text 400,
        bulletPointsOfChunk s chunk = (fun _ => ([] : List String)) chunk := by
      intro chunk _
      unfold bulletPointsOfChunk
      rw [hf]
    rw [List.map_congr_left h]
    simp
  have hcards : flashcardsList text s (d * 5) = [] :=
    List.filterMap_eq_nil_iff.mpr (fun chunk _ => by rw [hf])
  have hqa : qaPairsList text s (d * 3) = [] :=
    List.filterMap_eq_nil_iff.mpr (fun p _ => by rw [hf])
  have hconc : conceptsList text s (d * 2) = [] :=
    List.filterMap_eq_nil_iff.mpr (fun chunk _ => hf _ _ _)
  refine ⟨?_, ?_, ?_, ?_, ?_⟩
  · show generate_comprehensive_with text s (100 + d * 30) (30 + d * 10) = _
    unfold generate_comprehensive_with
    rw [hsum]
    rfl
  · unfold generate_bullet_points
    rw [hpts]
    rfl
  · show generate_flashcards_upto text s (d * 5) = _
    unfold generate_flashcards_upto
    rw [hcards]
    rfl
  · show generate_qa_upto text s (d * 3) = _
    unfold generate_qa_upto
    rw [hqa]
    rfl
  · show generate_concept_map_upto text s (d * 2) = _
    unfold generate_concept_map_upto
    rw [hconc]
    rfl

/-- Witness for `generators_all_fail_fallback` with an always-failing summarizer. -/
theorem generators_all_fail_fallback_witness :
    generate_comprehensive_summary exA60 (fun _ _ _ => none) 3 = "Could not generate summary."
    ∧ generate_bullet_points exA60 (fun _ _ _ => none) 3 = "Could not generate bullet points."
    ∧ generate_flashcards exA60 (fun _ _ _ => none) 3 = "Could not generate flashcards."
    ∧ generate_qa_format exA60 (fun _ _ _ => none) 3 = "Could not generate Q&A pairs."
    ∧ generate_concept_map exA60 (fun _ _ _ => none) 3 = "Could not generate concept map." :=
  generators_all_fail_fallback exA60 (fun _ _ _ => none) 3 (fun _ _ _ => rfl)

/- ------------------------------------------------------------------
   Claim C10: totality of the generators over any summarizer behavior
   ------------------------------------------------------------------ -/

/-- C10: every format generator is total with respect to the summarizer: for
every input text, detail level, and summarizer behavior — including failing
(raising) on any or all calls, which the per-chunk handler absorbs — the
generator returns a non-empty string (either an assembled artifact or the
fixed fallback) and, being a total function of the summarizer's outcomes,
never propagates a failure. -/
theorem generators_total_nonempty (text : String) (s : Summarizer) (d : Nat) :
    generate_comprehensive_summary text s d ≠ ""
    ∧ generate_bullet_points text s d ≠ ""
    ∧ generate_flashcards text s d ≠ ""
    ∧ generate_qa_format text s d ≠ ""
    ∧ generate_concept_map text s d ≠ "" := by
  refine ⟨?_, ?_, ?_, ?_, ?_⟩
  · show generate_comprehensive_with text s (100 + d * 30) (30 + d * 10) ≠ ""
    unfold generate_comprehensive_with
    by_cases h : summariesList text s (100 + d * 30) (30 + d * 10) = []
    · rw [h]
      decide
    · show (if summariesList text s (100 + d * 30) (30 + d * 10) = [] then _ else _) ≠ _
      rw [if_neg h]
      apply pyJoin_ne_empty
      · intro habs
        apply h
        have := congrArg List.length habs
        simp at this
        exact this
      · intro x hx
        rcases List.mem_map.mp hx with ⟨p, _, hpeq⟩
        rw [← hpeq]
        exact data_ne_nil_append _ _ (data_ne_nil_append _ _ (data_ne_nil_append _ _ (by decide)))
  · unfold generate_bullet_points
    by_cases h : allPointsList text s = []
    · rw [h]
      decide
    · show (if allPointsList text s = [] then _ else _) ≠ _
      rw [if_neg h]
      apply pyJoin_ne_empty _ _ h
      intro x hx
      rcases allPointsList_shape text s x hx with ⟨t, hteq, _, _⟩
      rw [hteq]
      exact data_ne_nil_append _ _ (by decide)
  · show generate_flashcards_upto text s (d * 5) ≠ ""
    unfold generate_flashcards_upto
    by_cases h : flashcardsList text s (d * 5) = []
    · rw [h]
      decide
    · show (if flashcardsList text s (d * 5) = [] then _ else _) ≠ _
      rw [if_neg h]
      apply pyJoin_ne_empty
      · intro habs
        apply h
        have := congrArg List.length habs
        simp at this
        exact this
      · intro x hx
        rcases List.mem_map.mp hx with ⟨p, _, hpeq⟩
        rw [← hpeq]
        exact data_ne_nil_append _ _ (data_ne_nil_append _ _ (data_ne_nil_append _ _ (by decide)))
  · show generate_qa_upto text s (d * 3) ≠ ""
    unfold generate_qa_upto
    by_cases h : qaPairsList text s (d * 3) = []
    · rw [h]
      decide
    · show (if qaPairsList text s (d * 3) = [] then _ else _) ≠ _
      rw [if_neg h]
      apply pyJoin_ne_empty _ _ h
      intro x hx
      rcases List.mem_filterMap.mp hx with ⟨p, _, hpeq⟩
      cases hs : s (pyTake p.2 3000) 100 30 with
      | none => rw [hs] at hpeq; simp at hpeq
      | some summary =>
        rw [hs] at hpeq
        simp only [] at hpeq
        by_cases hw : 10 < (pySplitWs summary).length
        · rw [if_pos hw] at hpeq
          have hx2 := Option.some.inj hpeq
          rw [← hx2]
          repeat apply data_ne_nil_append
          decide
        · rw [if_neg hw] at hpeq
          simp at hpeq
  · show generate_concept_map_upto text s (d * 2) ≠ ""
    unfold generate_concept_map_upto
    by_cases h : conceptsList text s (d * 2) = []
    · rw [h]
      decide
    · show (if conceptsList text s (d * 2) = [] then _ else _) ≠ _
      rw [if_neg h]
      apply str_ne_empty_of_data_ne_nil
      apply foldl_preserve_data_ne_nil
      · intro r x hr
        exact data_ne_nil_append _ _ (data_ne_nil_append _ _ (data_ne_nil_append _ _
          (data_ne_nil_append _ _ (data_ne_nil_append _ _ hr))))
      · exact data_ne_nil_append _ _ (by decide)

/- ------------------------------------------------------------------
   Claim C9: what the detail level does and does not affect
   ------------------------------------------------------------------ -/

/-- C9: the Bullet Points artifact is independent of the detail level (the
generator accepts but never reads it), while the detail level enters the
other four generators only through the comprehensive-summary length bounds
`(100 + 30 D, 30 + 10 D)` and the chunk caps `5 D`, `3 D`, `2 D` of
Flashcards, Q&A and Concept Map. -/
theorem bullet_points_detail_level_invariant :
    (∀ (text : String) (s : Summarizer) (d1 d2 : Nat),
        generate_bullet_points text s d1 = generate_bullet_points text s d2)
    ∧ (∀ (text : String) (s : Summarizer) (d : Nat),
        generate_comprehensive_summary text s d
            = generate_comprehensive_with text s (100 + d * 30) (30 + d * 10)
        ∧ generate_flashcards text s d = generate_flashcards_upto text s (d * 5)
        ∧ generate_qa_format text s d = generate_qa_upto text s (d * 3)
        ∧ generate_concept_map text s d = generate_concept_map_upto text s (d * 2)) :=
  ⟨fun _ _ _ _ => rfl, fun _ _ _ => ⟨rfl, rfl, rfl, rfl⟩⟩

/- ------------------------------------------------------------------
   Claim C7: flashcard count and labels under an always-successful summarizer
   ------------------------------------------------------------------ -/

theorem splitDotSpaceChars_ne_nil (cs : List Char) : splitDotSpaceChars cs ≠ [] := by
  unfold splitDotSpaceChars
  split
  · simp
  · simp
  · split
    · simp
    · simp

theorem pySplitDotSpace_ne_nil (s : String) : pySplitDotSpace s ≠ [] := by
  unfold pySplitDotSpace
  intro h
  exact splitDotSpaceChars_ne_nil s.data (List.map_eq_nil_iff.mp h)

/-- C7: when every summarization call succeeds, the flashcards list contains
exactly `min(number of chunks, 5 × D)` cards, and the artifact is those cards
joined with the labels "Card 1" .. "Card N" in chunk order (or the fallback
when there are no cards at all). -/
theorem flashcards_count_and_labels (text : String) (s : Summarizer) (d : Nat)
    (hs : ∀ x : String, (s x 80 20).isSome) :
    (flashcardsList text s (d * 5)).length
        = min (split_text_into_chunks text 500).length (d * 5)
    ∧ generate_flashcards text s d
        = (if flashcardsList text s (d * 5) = [] then "Could not generate flashcards."
           else pyJoin "\n\n" ((flashcardsList text s (d * 5)).enum.map
             (fun p => "--- Card " ++ toString (p.1 + 1) ++ " ---\n" ++ p.2))) := by
  constructor
  · unfold flashcardsList
    rw [length_filterMap_of_isSome]
    · rw [List.length_take, Nat.min_comm]
    · intro x _
      show (match s (pyTake x 3000) 80 20 with
        | none => none
        | some summary =>
          if 0 < (pySplitDotSpace summary).length then
            some ("Q: " ++ ("What is important about: "
                ++ pyTake ((pySplitDotSpace summary).headD "") 50 ++ "...?")
              ++ "\nA: " ++ summary)
          else none).isSome
      cases hsx : s (pyTake x 3000) 80 20 with
      | none =>
        have := hs (pyTake x 3000)
        rw [hsx] at this
        simp at this
      | some summary =>
        have hpos : 0 < (pySplitDotSpace summary).length :=
          List.length_pos.mpr (pySplitDotSpace_ne_nil summary)
        simp only []
        rw [if_pos hpos]
        rfl
  · rfl

/-- Summarizer returning a fixed two-sentence summary on every call. -/
def constSumm : Summarizer := fun _ _ _ => some "Summary sentence here. More detail text."

/-- Witness for `flashcards_count_and_labels` on a one-chunk input with an
always-successful summarizer. -/
theorem flashcards_count_and_labels_witness :
    (flashcardsList exA60 constSumm (1 * 5)).length
        = min (split_text_into_chunks exA60 500).length (1 * 5)
    ∧ generate_flashcards exA60 constSumm 1
        = (if flashcardsList exA60 constSumm (1 * 5) = [] then "Could not generate flashcards."
           else pyJoin "\n\n" ((flashcardsList exA60 constSumm (1 * 5)).enum.map
             (fun p => "--- Card " ++ toString (p.1 + 1) ++ " ---\n" ++ p.2))) :=
  flashcards_count_and_labels exA60 constSumm 1 (fun _ => rfl)

/- ------------------------------------------------------------------
   Claim C6: Q&A numbering follows the attempted-chunk position
   ------------------------------------------------------------------ -/

/-- Input with exactly two chunks at 400 words per chunk: 400 two-character
words (chunk 1, 1199 characters) followed by one 60-character word (chunk 2). -/
def qaExWords : List String := List.replicate 400 "aa" ++ [exA60]

def qaExText : String := pyJoin " " qaExWords

/-- Summarizer giving the long first chunk a 4-word summary (which fails the
more-than-10-words filter) and the short second chunk a 12-word summary. -/
def qaExSumm : Summarizer := fun t _ _ =>
  if 1000 ≤ t.length then some "too short summary text"
  else some "alpha beta gamma delta epsilon zeta eta theta iota kappa lambda mu"

/-- C6: the number in each emitted "Q{n}"/"A{n}" pair is `i + 1` where `i` is
the chunk's 0-based position among the attempted chunks (the first `3 × D`
chunks), not its position among the successfully emitted pairs; the artifact
joins exactly those pairs.  Concretely, when the first attempted chunk fails
the word-count filter, the first emitted pair is labeled "Q2"/"A2". -/
theorem qa_numbering_by_attempted_position :
    (∀ (text : String) (s : Summarizer) (d : Nat) (i : Nat) (c : String),
        (i, c) ∈ ((split_text_into_chunks text 400).take (d * 3)).enum →
        ∀ summary : String, s (pyTake c 3000) 100 30 = some summary →
        10 < (pySplitWs summary).length →
        (("Q" ++ toString (i + 1) ++ ": Explain - "
            ++ pyJoin " " ((pySplitWs summary).take 8) ++ "...?")
          ++ "\n" ++ ("A" ++ toString (i + 1) ++ ": " ++ summary))
          ∈ qaPairsList text s (d * 3))
    ∧ (∀ (text : String) (s : Summarizer) (d : Nat),
        generate_qa_format text s d
          = (if qaPairsList text s (d * 3) = [] then "Could not generate Q&A pairs."
             else pyJoin "\n\n" (qaPairsList text s (d * 3))))
    ∧ generate_qa_format qaExText qaExSumm 1
        = "Q2: Explain - alpha beta gamma delta epsilon zeta eta theta...?\nA2: alpha beta gamma delta epsilon zeta eta theta iota kappa lambda mu" := by
  refine ⟨?_, fun _ _ _ => rfl, by decide⟩
  intro text s d i c hmem summary hsum hw
  apply List.mem_filterMap.mpr
  refine ⟨(i, c), hmem, ?_⟩
  show (match s (pyTake (i, c).2 3000) 100 30 with
    | none => none
    | some summary =>
      let words := pySplitWs summary
      if 10 < words.length then
        some (("Q" ++ toString ((i, c).1 + 1) ++ ": Explain - "
            ++ pyJoin " " (words.take 8) ++ "...?")
          ++ "\n" ++ ("A" ++ toString ((i, c).1 + 1) ++ ": " ++ summary))
      else none)
    = some (("Q" ++ toString (i + 1) ++ ": Explain - "
        ++ pyJoin " " ((pySplitWs summary).take 8) ++ "...?")
      ++ "\n" ++ ("A" ++ toString (i + 1) ++ ": " ++ summary))
  rw [show (i, c).2 = c from rfl, hsum]
  simp only []
  rw [if_pos hw]

/-- Summarizer returning a fixed 12-word summary on every call. -/
def qaWitSumm : Summarizer :=
  fun _ _ _ => some "alpha beta gamma delta epsilon zeta eta theta iota kappa lambda mu"

/-- Witness for the general part of `qa_numbering_by_attempted_position` on a
one-chunk input whose single attempted chunk succeeds. -/
theorem qa_numbering_by_attempted_position_witness :
    (("Q" ++ toString (0 + 1) ++ ": Explain - "
        ++ pyJoin " " ((pySplitWs "alpha beta gamma delta epsilon zeta eta theta iota kappa lambda mu").take 8)
        ++ "...?")
      ++ "\n" ++ ("A" ++ toString (0 + 1)
        ++ ": " ++ "alpha beta gamma delta epsilon zeta eta theta iota kappa lambda mu"))
      ∈ qaPairsList exA60 qaWitSumm (1 * 3) :=
  qa_numbering_by_attempted_position.1 exA60 qaWitSumm 1 0 exA60 (by decide)
    "alpha beta gamma delta epsilon zeta eta theta iota kappa lambda mu" rfl (by decide)

/- ------------------------------------------------------------------
   Claim C4: concept map layout
   ------------------------------------------------------------------ -/

/-- One rendered node of the concept map tree. -/
def conceptNode (p : Nat × String) : String :=
  "├─ Concept " ++ toString (p.1 + 1) ++ "\n│  └─ " ++ p.2 ++ "\n│\n"

/-- C4 counterexample: even when at least one chunk summarization succeeds,
the concept map artifact does not begin with the header line "Main Topic" —
it begins with the banner "📊 CONCEPT MAP" and a separator line, with
"Main Topic" only on the fourth line. -/
theorem concept_map_not_starting_main_topic :
    conceptsList exA60 constSumm (3 * 2) ≠ []
    ∧ ¬ ∃ rest : String, generate_concept_map exA60 constSumm 3 = "Main Topic" ++ rest := by
  constructor
  · decide
  · rintro ⟨rest, hres⟩
    have h1 : (generate_concept_map exA60 constSumm 3).data.head? = some '📊' := by decide
    have h2 := congrArg (fun l : List Char => l.head?) (congrArg String.data hres)
    simp only [] at h2
    rw [h1, String.data_append] at h2
    have h3 : (("Main Topic" : String).data ++ rest.data).head? = some 'M' := rfl
    rw [h3] at h2
    exact absurd (Option.some.inj h2) (by decide)

/-- C4 (amended): whenever at least one chunk summarization succeeds, the
concept map artifact is exactly the banner "📊 CONCEPT MAP", a 50-character
"=" separator, a blank line, the header line "Main Topic" with its "|"
connector, followed by one rendered "Concept i" node per successful concept,
in chunk order with 1-based sequential numbering. -/
theorem concept_map_structure (text : String) (s : Summarizer) (d : Nat)
    (h : conceptsList text s (d * 2) ≠ []) :
    generate_concept_map text s d
      = "📊 CONCEPT MAP\n" ++ strRepeat "=" 50 ++ "\n\nMain Topic\n|\n"
        ++ String.join ((conceptsList text s (d * 2)).enum.map conceptNode) := by
  show generate_concept_map_upto text s (d * 2) = _
  unfold generate_concept_map_upto
  show (if conceptsList text s (d * 2) = [] then _ else _) = _
  rw [if_neg h]
  have hbody : (fun (result : String) (p : Nat × String) =>
        result ++ "├─ Concept " ++ toString (p.1 + 1) ++ "\n│  └─ " ++ p.2 ++ "\n│\n")
      = (fun (result : String) (p : Nat × String) => result ++ conceptNode p) := by
    funext r p
    apply String.ext
    simp [conceptNode, String.data_append, List.append_assoc]
  rw [hbody, foldl_strAppend_join]

/-- Witness for `concept_map_structure` on a one-chunk input with a
successful summarizer. -/
theorem concept_map_structure_witness :
    generate_concept_map exA60 constSumm 1
      = "📊 CONCEPT MAP\n" ++ strRepeat "=" 50 ++ "\n\nMain Topic\n|\n"
        ++ String.join ((conceptsList exA60 constSumm (1 * 2)).enum.map conceptNode) :=
  concept_map_structure exA60 constSumm 1 (by decide)

/- ------------------------------------------------------------------
   Claim C5: orchestrator per-format error isolation
   ------------------------------------------------------------------ -/

theorem genLoop_mem_results (build : String → Except String String) :
    ∀ (formats : List String) (f r : String),
      f ∈ formats → build f = Except.ok r → (f, r) ∈ (generationLoop build formats).1
  | [], f, _, h, _ => absurd h (List.not_mem_nil f)
  | g :: rest, f, r, h, hok => by
    unfold generationLoop
    cases hg : build g with
    | ok res =>
      rcases List.mem_cons.mp h with h1 | h2
      · subst h1
        rw [hg] at hok
        rw [Except.ok.inj hok]
        exact List.mem_cons_self _ _
      · exact List.mem_cons_of_mem _ (genLoop_mem_results build rest f r h2 hok)
    | error e =>
      rcases List.mem_cons.mp h with h1 | h2
      · subst h1
        rw [hg] at hok
        exact Except.noConfusion hok
      · exact genLoop_mem_results build rest f r h2 hok

theorem genLoop_results_ok (build : String → Except String String) :
    ∀ (formats : List String) (f r : String),
      (f, r) ∈ (generationLoop build formats).1 → build f = Except.ok r
  | [], f, r, h => absurd h (List.not_mem_nil (f, r))
  | g :: rest, f, r, h => by
    unfold generationLoop at h
    cases hg : build g with
    | ok res =>
      rw [hg] at h
      rcases List.mem_cons.mp h with h1 | h2
      · have hf : f = g := congrArg Prod.fst h1
        have hr : r = res := congrArg Prod.snd h1
        subst hf
        subst hr
        exact hg
      · exact genLoop_results_ok build rest f r h2
    | error e =>
      rw [hg] at h
      exact genLoop_results_ok build rest f r h

theorem genLoop_mem_errors (build : String → Except String String) :
    ∀ (formats : List String) (fmt e : String),
      fmt ∈ formats → build fmt = Except.error e →
      ("Error generating " ++ fmt ++ ": " ++ e) ∈ (generationLoop build formats).2
  | [], fmt, _, h, _ => absurd h (List.not_mem_nil fmt)
  | g :: rest, fmt, e, h, herr => by
    unfold generationLoop
    cases hg : build g with
    | ok res =>
      rcases List.mem_cons.mp h with h1 | h2
      · subst h1
        rw [hg] at herr
        exact Except.noConfusion herr
      · exact genLoop_mem_errors build rest fmt e h2 herr
    | error e2 =>
      rcases List.mem_cons.mp h with h1 | h2
      · subst h1
        rw [hg] at herr
        rw [Except.error.inj herr]
        exact List.mem_cons_self _ _
      · exact List.mem_cons_of_mem _ (genLoop_mem_errors build rest fmt e h2 herr)

/-- C5 (amended): when building one requested format raises, the orchestrator
loop catches it: the per-format message "Error generating {fmt}: {e}" is
surfaced (to the UI error stream, not into the results mapping), the failed
format gets *no* entry in the resulting NoteSet mapping, and every other
requested format that builds successfully still gets its artifact recorded —
the run is not aborted. -/
theorem orchestrator_error_isolation (build : String → Except String String)
    (formats : List String) (fmt e : String)
    (hmem : fmt ∈ formats) (herr : build fmt = Except.error e) :
    ("Error generating " ++ fmt ++ ": " ++ e) ∈ (generationLoop build formats).2
    ∧ (∀ m : String, (fmt, m) ∉ (generationLoop build formats).1)
    ∧ (∀ f r : String, f ∈ formats → build f = Except.ok r →
        (f, r) ∈ (generationLoop build formats).1) := by
  refine ⟨genLoop_mem_errors build formats fmt e hmem herr, ?_, ?_⟩
  · intro m hm
    have h := genLoop_results_ok build formats fmt m hm
    rw [herr] at h
    exact Except.noConfusion h
  · intro f r hf hok
    exact genLoop_mem_results build formats f r hf hok

/-- A build function that raises only on the Flashcards format. -/
def cexBuild : String → Except String String := fun fmt =>
  if fmt = "Flashcards" then Except.error "boom" else Except.ok ("artifact for " ++ fmt)

/-- C5 counterexample: with a run over all five formats in which building
Flashcards raises, the resulting NoteSet mapping contains *no* entry for
Flashcards at all — no error marker stands in place of its artifact. -/
theorem orchestrator_no_marker_in_noteset :
    ("Flashcards" ∈ allFormats ∧ cexBuild "Flashcards" = Except.error "boom")
    ∧ ¬ ∃ m : String, ("Flashcards", m) ∈ (generationLoop cexBuild allFormats).1 := by
  refine ⟨⟨by decide, rfl⟩, ?_⟩
  rintro ⟨m, hm⟩
  have h := genLoop_results_ok cexBuild allFormats "Flashcards" m hm
  rw [show cexBuild "Flashcards" = Except.error "boom" from rfl] at h
  exact Except.noConfusion h

/-- Witness for `orchestrator_error_isolation` on the concrete failing run. -/
theorem orchestrator_error_isolation_witness :
    ("Error generating " ++ "Flashcards" ++ ": " ++ "boom")
        ∈ (generationLoop cexBuild allFormats).2
    ∧ (∀ m : String, ("Flashcards", m) ∉ (generationLoop cexBuild allFormats).1)
    ∧ (∀ f r : String, f ∈ allFormats → cexBuild f = Except.ok r →
        (f, r) ∈ (generationLoop cexBuild allFormats).1) :=
  orchestrator_error_isolation cexBuild allFormats "Flashcards" "boom" (by decide) rfl

/- ------------------------------------------------------------------
   Claim C8: bullet point shape
   ------------------------------------------------------------------ -/

/-- Summarizer whose summary contains an embedded newline inside a sentence. -/
def nlSumm : Summarizer := fun _ _ _ => some "aaaaaaaaaaaa\nbb. cc"

/-- C8 counterexample: with a summary containing an embedded newline, the
bullet points artifact contains the physical line "bb." which neither starts
with the bullet marker nor has 11 characters after it — the per-line reading
of the claim fails. -/
theorem bullet_points_line_claim_false :
    "bb." ∈ pySplitNL (generate_bullet_points exA60 nlSumm 3)
    ∧ ¬ ∃ t : String, ("bb." : String) = "• " ++ t
        ∧ 11 ≤ t.length ∧ t.data.getLast? = some '.' := by
  constructor
  · decide
  · rintro ⟨t, ht, _, _⟩
    have hh := congrArg (fun l : List Char => l.head?) (congrArg String.data ht)
    simp only [] at hh
    rw [String.data_append] at hh
    have h1 : ("bb." : String).data.head? = some 'b' := rfl
    have h2 : (("• " : String).data ++ t.data).head? = some '•' := rfl
    rw [h1, h2] at hh
    exact absurd (Option.some.inj hh) (by decide)

/-- C8 (amended): every *bullet point* emitted by the Bullet Points generator
(the entries later joined with newlines, rather than every physical line of
the joined artifact) consists of the bullet marker "• " followed by at least
11 characters and ends with a period; the artifact is exactly those points
joined with newlines, or the fallback when there are none. -/
theorem bullet_points_shape (text : String) (s : Summarizer) (d : Nat) :
    (∀ p ∈ allPointsList text s,
        ∃ t : String, p = "• " ++ t ∧ 11 ≤ t.length ∧ t.data.getLast? = some '.')
    ∧ generate_bullet_points text s d
        = (if allPointsList text s = [] then "Could not generate bullet points."
           else pyJoin "\n" (allPointsList text s)) :=
  ⟨allPointsList_shape text s, rfl⟩

/-- Summarizer producing one long sentence without a trailing period. -/
def bulletWitSumm : Summarizer := fun _ _ _ => some "alpha beta gamma. hi"

/-- Witness for `bullet_points_shape` on a concrete emitted point. -/
theorem bullet_points_shape_witness :
    ∃ t : String, ("• alpha beta gamma." : String) = "• " ++ t
      ∧ 11 ≤ t.length ∧ t.data.getLast? = some '.' :=
  (bullet_points_shape exA60 bulletWitSumm 3).1 "• alpha beta gamma." (by decide)
